import Mathlib

/-!
# Verification of the live trading execution engine (`live_trader.py`)

Shallow embedding of the live trading core of this repository:

* `LiveMeanReversionStrategy` (rolling z-score signal generation),
* `TradingState` and its mutators,
* the stream callbacks `handle_trade_update`, `handle_trade`, `handle_bar`,
* the periodic account/position refresh inside `main`'s loop,
* the queue-consuming execution loop of `main` (signal evaluation,
  order-orchestration and the per-event exception boundary).

Python floats are modelled as rationals (`ℚ`); the standard deviation,
which goes through `numpy`'s square root, lives in `ℝ`.  Values that are
`None`-able in Python are `Option`s; Python truthiness of an optional
float (`None` and `0.0` are falsy) is `qTruthy`.  Broker interactions are
modelled by explicit inputs (the acknowledgement returned by
`place_order`, the snapshots returned by the query calls) and by a list
of emitted `BrokerCall`s.
-/

namespace LiveTrader

open Classical

/-- Trading intents returned by the strategy (`"BUY"`, `"SELL"`, `"CLOSE"`, `"HOLD"`). -/
inductive Signal where
  | BUY
  | SELL
  | CLOSE
  | HOLD
  deriving DecidableEq, Repr

/-- Static configuration of `LiveMeanReversionStrategy.__init__`. -/
structure StratConfig where
  zscore_period : Nat
  zscore_upper : ℚ
  zscore_lower : ℚ
  exit_threshold : ℚ
  deriving DecidableEq, Repr

/-- Mutable state of a `LiveMeanReversionStrategy` object: the price deque
(`collections.deque(maxlen=zscore_period)`, newest last) and the cached
`current_zscore`. -/
structure StratState where
  prices : List ℚ
  current_zscore : Option ℝ

/-- `self.prices.append(current_price)` on a deque with `maxlen = period`:
append and drop from the front down to `period` elements. -/
def pushPrice (period : Nat) (ps : List ℚ) (p : ℚ) : List ℚ :=
  let qs := ps ++ [p]
  if period < qs.length then qs.drop (qs.length - period) else qs

/-- `np.mean` of the window. -/
def mean (l : List ℚ) : ℚ := l.sum / l.length

/-- Population variance, the square of `np.std` of the window. -/
def variance (l : List ℚ) : ℚ := ((l.map (fun x => (x - mean l) ^ 2)).sum) / l.length

/-- `np.std` of the window (population standard deviation). -/
noncomputable def stdev (l : List ℚ) : ℝ := Real.sqrt ((variance l : ℚ) : ℝ)

/-- `LiveMeanReversionStrategy._calculate_zscore`: `none` models the
`return False` paths (fewer than `zscore_period` samples, or
`stdev < 1e-6`); otherwise the z-score `(prices[-1] - sma) / stdev`. -/
noncomputable def calcZscore (period : Nat) (ps : List ℚ) : Option ℝ :=
  if ps.length < period then none
  else
    let sma := mean ps
    let sd := stdev ps
    if sd < (1 / 1000000 : ℝ) then none
    else some (((ps.getLast?.getD 0 - sma : ℚ) : ℝ) / sd)

/-- The signal-decision block of `LiveMeanReversionStrategy.get_signal`
(lines 62-84): CLOSE checks on the current position first, then the
entry checks when still `HOLD` and flat within the `0.01` tolerance. -/
noncomputable def signalLogic (cfg : StratConfig) (z : ℝ) (pos : ℚ) : Signal :=
  let s1 : Signal :=
    if (1 / 100 : ℚ) < pos then
      (if (cfg.exit_threshold : ℝ) ≤ z then Signal.CLOSE else Signal.HOLD)
    else if pos < -(1 / 100 : ℚ) then
      (if z ≤ (cfg.exit_threshold : ℝ) then Signal.CLOSE else Signal.HOLD)
    else Signal.HOLD
  if s1 = Signal.HOLD ∧ |pos| < (1 / 100 : ℚ) then
    (if z < (cfg.zscore_lower : ℝ) then Signal.BUY
     else if (cfg.zscore_upper : ℝ) < z then Signal.SELL
     else Signal.HOLD)
  else s1

/-- `LiveMeanReversionStrategy.get_signal`: append the price to the
rolling window, recompute the z-score, return the updated strategy
object state together with the signal. -/
noncomputable def get_signal (cfg : StratConfig) (s : StratState) (current_price : ℚ)
    (current_position_qty : ℚ) : StratState × Signal :=
  let ps := pushPrice cfg.zscore_period s.prices current_price
  match calcZscore cfg.zscore_period ps with
  | none => (⟨ps, none⟩, Signal.HOLD)
  | some z => (⟨ps, some z⟩, signalLogic cfg z current_position_qty)

/-- The `TradingState` class of `live_trader.py`: the in-process record of
position, cash and active-order identity for one symbol. -/
structure TradingState where
  symbol : String
  current_position_qty : ℚ
  active_order_id : Option String
  target_position_qty : ℚ
  last_known_cash : Option ℚ
  last_known_portfolio_value : Option ℚ
  last_trade_price : Option ℚ
  last_bar_close : Option ℚ
  deriving DecidableEq, Repr

/-- The order dict carried by a `trade_updates` stream event
(`update_data.order`): the fields `handle_trade_update` reads. -/
structure OrderInfo where
  id : Option String
  status : String
  client_order_id : Option String
  filled_qty : ℚ
  side : String
  deriving DecidableEq, Repr

/-- Items the producers put on `data_queue` (the fields relevant to the
consumer; the consuming loop reads only the item's type tag). -/
inductive QueueItem where
  | orderUpdate (oi : OrderInfo)
  | accountUpdate (cash portfolio_value : ℚ)
  | trade (symbol : String) (price : ℚ)
  | bar (symbol : String) (close : ℚ)
  deriving DecidableEq, Repr

/-- Tag test: is the dequeued item of type `'trade'`? -/
def QueueItem.isTrade : QueueItem → Bool
  | .trade _ _ => true
  | _ => false

/-- Tag test: is the dequeued item of type `'bar'`? -/
def QueueItem.isBar : QueueItem → Bool
  | .bar _ _ => true
  | _ => false

/-- Python truthiness of an optional float: `None` and `0.0` are falsy. -/
def qTruthy (x : Option ℚ) : Bool := x.getD 0 ≠ 0

/-- The order-update branch of `handle_trade_update` (lines 189-206):
reacts only when an active order id is set and the update's
`client_order_id` matches it; `filled` adjusts the position by the
side-signed `filled_qty` and clears the active order, `partially_filled`
changes nothing, the terminal non-fill statuses clear the active order. -/
def handleOrderUpdate (s : TradingState) (oi : OrderInfo) : TradingState :=
  match s.active_order_id with
  | none => s
  | some aid =>
    if oi.client_order_id = some aid then
      if oi.status = "filled" then
        let actual_qty_change := if oi.side = "buy" then oi.filled_qty else -oi.filled_qty
        { s with current_position_qty := s.current_position_qty + actual_qty_change,
                 active_order_id := none }
      else if oi.status = "partially_filled" then s
      else if oi.status = "canceled" ∨ oi.status = "expired" ∨ oi.status = "rejected" ∨
              oi.status = "done_for_day" then
        { s with active_order_id := none }
      else s
    else s

/-- The shapes of `update_data` that `handle_trade_update` distinguishes:
an update carrying an order dict, an `account_update`, or anything else. -/
inductive UpdateData where
  | orderU (event : String) (oi : OrderInfo)
  | accountU (cash portfolio_value : ℚ)
  | other (event : String)
  deriving DecidableEq, Repr

/-- `handle_trade_update` (producer callback on the `trade_updates`
stream): mutates `TradingState` directly and then enqueues an item. -/
def handle_trade_update (s : TradingState) (u : UpdateData) :
    TradingState × List QueueItem :=
  match u with
  | .orderU _ oi => (handleOrderUpdate s oi, [QueueItem.orderUpdate oi])
  | .accountU c pv =>
      ({ s with last_known_cash := some c, last_known_portfolio_value := some pv },
       [QueueItem.accountUpdate c pv])
  | .other _ => (s, [])

/-- `handle_trade` (producer callback): for the traded symbol, records the
trade price on the state and enqueues a `'trade'` item. -/
def handle_trade (s : TradingState) (sym : String) (price : ℚ) :
    TradingState × List QueueItem :=
  if sym = s.symbol then
    ({ s with last_trade_price := some price }, [QueueItem.trade sym price])
  else (s, [])

/-- `handle_bar` (producer callback): for the traded symbol, records the
bar close on the state and enqueues a `'bar'` item. -/
def handle_bar (s : TradingState) (sym : String) (close : ℚ) :
    TradingState × List QueueItem :=
  if sym = s.symbol then
    ({ s with last_bar_close := some close }, [QueueItem.bar sym close])
  else (s, [])

/-- Result of `broker.get_account_info()` when truthy. -/
structure AccountInfo where
  cash : ℚ
  portfolio_value : ℚ
  deriving DecidableEq, Repr

/-- Result of one periodic refresh (lines 266-287 of `main`). -/
structure RefreshResult where
  newState : TradingState
  cashWarn : Bool
  posWarn : Bool
  enqueued : List QueueItem
  deriving DecidableEq, Repr

/-- The periodic account/position refresh inside `main`'s loop
(lines 266-287): updates cash/portfolio value from the polled account
snapshot, compares the polled position quantity against the local one and
warns beyond the `0.01` tolerance, changes `current_position_qty` never,
and puts nothing on the queue. -/
def periodicRefresh (s : TradingState) (acct : Option AccountInfo)
    (posQty : Option ℚ) : RefreshResult :=
  let cashWarn := match acct, s.last_known_cash with
    | some a, some c => decide ((1 / 100 : ℚ) < |a.cash - c|)
    | _, _ => false
  let s1 := match acct with
    | some a => { s with last_known_cash := some a.cash,
                         last_known_portfolio_value := some a.portfolio_value }
    | none => s
  let refreshed_qty := posQty.getD 0
  let posWarn := decide ((1 / 100 : ℚ) < |refreshed_qty - s1.current_position_qty|)
  ⟨s1, cashWarn, posWarn, []⟩

/-- The acknowledgement object returned synchronously by
`broker.place_order` (`None` is modelled by `Option` at the call site);
`id` is `none` when the object has no truthy `id` attribute. -/
structure OrderAck where
  id : Option String
  status : String
  deriving DecidableEq, Repr

/-- Outbound broker-gateway calls observable during one processing step.
`riskCheck` is modelled from the spec: the Risk Gate interface
`check(symbol, side, qty)`; it exists so that claims about the Risk Gate
can be stated — the execution loop under verification never emits it. -/
inductive BrokerCall where
  | placeOrder (symbol : String) (qty : ℚ) (side : String) (client_order_id : String)
  | riskCheck (symbol : String) (side : String) (qty : ℚ)
  deriving DecidableEq, Repr

/-- Is this call an order submission? -/
def BrokerCall.isPlace : BrokerCall → Bool
  | .placeOrder _ _ _ _ => true
  | _ => false

/-- Is this call a Risk Gate check? -/
def BrokerCall.isRisk : BrokerCall → Bool
  | .riskCheck _ _ _ => true
  | _ => false

/-- Number of order submissions in a list of broker calls. -/
def placeCount (l : List BrokerCall) : Nat := (l.filter BrokerCall.isPlace).length

/-- The target position the loop derives from a signal (lines 308-315). -/
def targetFor (sg : Signal) (current : ℚ) : ℚ :=
  match sg with
  | Signal.BUY => 10
  | Signal.SELL => -10
  | Signal.CLOSE => 0
  | Signal.HOLD => current

/-- The order-orchestration block of `main`'s loop (lines 305-347), given
the signal computed for the dequeued item, the freshly generated
`client_order_id` and the broker's synchronous `place_order` response:
acts only when no order is active; no-ops when `|qty_to_trade| ≤ 0.01`;
otherwise submits a market order, records the active order id on a truthy
acknowledgement with a truthy `id`, and clears it again at once when the
acknowledgement status is already terminal. -/
def actOnSignal (t : TradingState) (sg : Option Signal) (client_order_id : String)
    (ack : Option OrderAck) : TradingState × List BrokerCall :=
  match sg with
  | none => (t, [])
  | some signal =>
    if t.active_order_id = none then
      let t1 := { t with target_position_qty := targetFor signal t.current_position_qty }
      let qty_to_trade := t1.target_position_qty - t1.current_position_qty
      if (1 / 100 : ℚ) < |qty_to_trade| then
        let side := if 0 < qty_to_trade then "buy" else "sell"
        let order_qty := |qty_to_trade|
        let calls := [BrokerCall.placeOrder t1.symbol order_qty side client_order_id]
        match ack with
        | some order =>
          if order.id.isSome then
            let t2 := { t1 with active_order_id := some client_order_id }
            if order.status = "rejected" ∨ order.status = "canceled" ∨
               order.status = "expired" then
              ({ t2 with active_order_id := none }, calls)
            else (t2, calls)
          else (t1, calls)
        | none => (t1, calls)
      else (t1, [])
    else (t, [])

/-- Combined state of the engine: the `TradingState` object and the
strategy object. -/
structure EngineState where
  trading : TradingState
  strat : StratState

/-- The signal-evaluation block of `main`'s loop (lines 293-303): only
`'trade'`/`'bar'` items drive the strategy; the price used is
`state.last_trade_price`, falling back to `state.last_bar_close` for bar
items when the former is falsy; a falsy price yields no signal. -/
noncomputable def computeSignal (cfg : StratConfig) (t : TradingState) (st : StratState)
    (item : QueueItem) : StratState × Option Signal :=
  if item.isTrade ∨ item.isBar then
    let cp0 := t.last_trade_price
    let cp := if ¬ qTruthy cp0 ∧ item.isBar then t.last_bar_close else cp0
    if qTruthy cp then
      let r := get_signal cfg st (cp.getD 0) t.current_position_qty
      (r.1, some r.2)
    else (st, none)
  else (st, none)

/-- One dequeue-and-process step of `main`'s loop (lines 289-349). -/
noncomputable def processQueueItem (cfg : StratConfig) (client_order_id : String)
    (ack : Option OrderAck) (es : EngineState) (item : QueueItem) :
    EngineState × List BrokerCall :=
  let r := computeSignal cfg es.trading es.strat item
  let a := actOnSignal es.trading r.2 client_order_id ack
  (⟨a.1, r.1⟩, a.2)

/-- Environment of one loop iteration: an optional exogenous runtime
exception raised while processing the item (modelling the failures the
`except Exception` boundary at lines 358-360 exists for), the dequeued
item, the fresh client order id and the broker's response. -/
structure LoopInput where
  fault : Option String
  item : QueueItem
  freshCid : String
  ack : Option OrderAck

/-- The execution loop over a finite schedule of iterations: a faulted
iteration is caught at the loop boundary (lines 358-360) and the loop
continues with the next input; returns the final state and the number of
iterations completed. -/
noncomputable def runLoop (cfg : StratConfig) (es : EngineState) :
    List LoopInput → EngineState × Nat
  | [] => (es, 0)
  | inp :: rest =>
    let es1 := match inp.fault with
      | some _ => es
      | none => (processQueueItem cfg inp.freshCid inp.ack es inp.item).1
    let r := runLoop cfg es1 rest
    (r.1, r.2 + 1)

/-- Repeated runs of the signal generator: feed a list of
(price, position) inputs through `get_signal`, threading the strategy
state, and collect the emitted signals. -/
noncomputable def runSignals (cfg : StratConfig) (s : StratState) :
    List (ℚ × ℚ) → List Signal
  | [] => []
  | (p, pos) :: rest =>
    let r := get_signal cfg s p pos
    r.2 :: runSignals cfg r.1 rest

/-- Modelled from the spec (§4.2): the signal rules with the flat/long/
short cases read literally — flat means `position_qty == 0`, long means
`position_qty > 0`, short means `position_qty < 0`. -/
noncomputable def specSignalLogicExact (cfg : StratConfig) (z : ℝ) (pos : ℚ) : Signal :=
  if pos = 0 then
    (if z < (cfg.zscore_lower : ℝ) then Signal.BUY
     else if (cfg.zscore_upper : ℝ) < z then Signal.SELL
     else Signal.HOLD)
  else if 0 < pos then
    (if (cfg.exit_threshold : ℝ) ≤ z then Signal.CLOSE else Signal.HOLD)
  else
    (if z ≤ (cfg.exit_threshold : ℝ) then Signal.CLOSE else Signal.HOLD)

/-- Modelled from the spec (§4.2): the full reference signal function of
the claim — the code's window/statistic pipeline with the spec's literal
flat/long/short classification. -/
noncomputable def specGetSignal (cfg : StratConfig) (s : StratState) (current_price : ℚ)
    (current_position_qty : ℚ) : StratState × Signal :=
  let ps := pushPrice cfg.zscore_period s.prices current_price
  match calcZscore cfg.zscore_period ps with
  | none => (⟨ps, none⟩, Signal.HOLD)
  | some z => (⟨ps, some z⟩, specSignalLogicExact cfg z current_position_qty)

/-- The signal rules of the spec amended with the code's `0.01` position
tolerance: flat means `|position_qty| < 0.01`, long means
`position_qty > 0.01`, short means `position_qty < -0.01`, and the
boundary `|position_qty| = 0.01` yields `HOLD`. -/
noncomputable def specSignalLogicTol (cfg : StratConfig) (z : ℝ) (pos : ℚ) : Signal :=
  if (1 / 100 : ℚ) < pos then
    (if (cfg.exit_threshold : ℝ) ≤ z then Signal.CLOSE else Signal.HOLD)
  else if pos < -(1 / 100 : ℚ) then
    (if z ≤ (cfg.exit_threshold : ℝ) then Signal.CLOSE else Signal.HOLD)
  else if |pos| < (1 / 100 : ℚ) then
    (if z < (cfg.zscore_lower : ℝ) then Signal.BUY
     else if (cfg.zscore_upper : ℝ) < z then Signal.SELL
     else Signal.HOLD)
  else Signal.HOLD

/-- The reference signal function amended with the code's position
tolerance. -/
noncomputable def specGetSignalTol (cfg : StratConfig) (s : StratState) (current_price : ℚ)
    (current_position_qty : ℚ) : StratState × Signal :=
  let ps := pushPrice cfg.zscore_period s.prices current_price
  match calcZscore cfg.zscore_period ps with
  | none => (⟨ps, none⟩, Signal.HOLD)
  | some z => (⟨ps, some z⟩, specSignalLogicTol cfg z current_position_qty)

/-- Modelled from the spec (§4.2): the statistic
`z = (price - mean) / (stdev + ε)` with `ε = 1e-6`. -/
noncomputable def specZscore (ps : List ℚ) : ℝ :=
  ((ps.getLast?.getD 0 - mean ps : ℚ) : ℝ) / (stdev ps + 1 / 1000000)

/-- The strategy configuration hard-coded in `main`. -/
def mainConfig : StratConfig := ⟨20, 2, -2, 0⟩

/-- A small configuration (window of 2) used for concrete evaluations. -/
def cfg2 : StratConfig := ⟨2, 2, -2, 0⟩

/-- Concrete state: flat position in SPY, no active order, last trade 7. -/
def tFlat : TradingState := ⟨"SPY", 0, none, 0, some 1000, some 1000, some 7, none⟩

/-- Concrete state: long 10 SPY with an active order `"c1"`. -/
def sB : TradingState := ⟨"SPY", 10, some "c1", 0, none, none, none, none⟩

/-- Concrete state: long 10 SPY, no active order, known cash 100. -/
def s3 : TradingState := ⟨"SPY", 10, none, 0, some 100, some 200, none, none⟩

/-- Partial fill of 4 on the active sell order `"c1"` (Scenario B). -/
def oiP : OrderInfo := ⟨some "o1", "partially_filled", some "c1", 4, "sell"⟩

/-- Full fill of 10 on the active sell order `"c1"` (Scenario B). -/
def oiF : OrderInfo := ⟨some "o1", "filled", some "c1", 10, "sell"⟩

lemma actOnSignal_inactive (t : TradingState) (sg : Option Signal) (cid : String)
    (ack : Option OrderAck) (h : t.active_order_id ≠ none) :
    actOnSignal t sg cid ack = (t, []) := by
  cases sg with
  | none => rfl
  | some s => simp [actOnSignal, h]

lemma get_signal_prices_only (cfg : StratConfig) {s1 s2 : StratState}
    (h : s1.prices = s2.prices) (p pos : ℚ) :
    get_signal cfg s1 p pos = get_signal cfg s2 p pos := by
  cases s1 with
  | mk ps1 z1 =>
    cases s2 with
    | mk ps2 z2 =>
      simp only at h
      subst h
      rfl

/-- C1: Single-active-order invariant — during the processing of any
dequeued event, if `active_order_id` is set when the signal is evaluated,
no `place_order` call is emitted. -/
theorem singleActiveOrder_noSubmission (cfg : StratConfig) (cid : String)
    (ack : Option OrderAck) (es : EngineState) (item : QueueItem)
    (h : es.trading.active_order_id ≠ none) :
    placeCount (processQueueItem cfg cid ack es item).2 = 0 := by
  show placeCount
      (actOnSignal es.trading (computeSignal cfg es.trading es.strat item).2 cid ack).2 = 0
  rw [actOnSignal_inactive _ _ _ _ h]
  rfl

/-- C1 witness: with active order `"c1"` set, processing an event emits
no submission. -/
theorem singleActiveOrder_noSubmission_witness :
    placeCount
      (processQueueItem mainConfig "cid0" none ⟨sB, ⟨[], none⟩⟩
        (QueueItem.orderUpdate oiP)).2 = 0 :=
  singleActiveOrder_noSubmission mainConfig "cid0" none ⟨sB, ⟨[], none⟩⟩
    (QueueItem.orderUpdate oiP) (by simp [sB])

/-- C2: Order-update lifecycle on the active order — `filled` adjusts the
position by the side-signed fill quantity and clears the active order;
`partially_filled` changes nothing; terminal non-fill statuses clear the
active order and leave the position unchanged. -/
theorem orderUpdate_lifecycle (s : TradingState) (oi : OrderInfo) (aid : String)
    (hact : s.active_order_id = some aid) (hcid : oi.client_order_id = some aid) :
    (oi.status = "filled" → oi.side = "buy" →
        (handleOrderUpdate s oi).current_position_qty =
          s.current_position_qty + oi.filled_qty ∧
        (handleOrderUpdate s oi).active_order_id = none) ∧
    (oi.status = "filled" → oi.side = "sell" →
        (handleOrderUpdate s oi).current_position_qty =
          s.current_position_qty - oi.filled_qty ∧
        (handleOrderUpdate s oi).active_order_id = none) ∧
    (oi.status = "partially_filled" → handleOrderUpdate s oi = s) ∧
    ((oi.status = "canceled" ∨ oi.status = "expired" ∨ oi.status = "rejected") →
        (handleOrderUpdate s oi).active_order_id = none ∧
        (handleOrderUpdate s oi).current_position_qty = s.current_position_qty) := by
  refine ⟨?_, ?_, ?_, ?_⟩
  · intro hst hsd
    simp [handleOrderUpdate, hact, hcid, hst, hsd]
  · intro hst hsd
    simp [handleOrderUpdate, hact, hcid, hst, hsd, sub_eq_add_neg]
  · intro hst
    simp [handleOrderUpdate, hact, hcid, hst]
  · intro hst
    rcases hst with h | h | h <;> simp [handleOrderUpdate, hact, hcid, h]

/-- C2 witness (Scenario B): long 10, partial fill of 4 on the CLOSE sell
order leaves the state unchanged; the subsequent full fill of 10 brings
the position to 0 and clears the active order. -/
theorem orderUpdate_lifecycle_witness :
    handleOrderUpdate sB oiP = sB ∧
    (handleOrderUpdate (handleOrderUpdate sB oiP) oiF).current_position_qty = 0 ∧
    (handleOrderUpdate (handleOrderUpdate sB oiP) oiF).active_order_id = none := by
  have h1 := (orderUpdate_lifecycle sB oiP "c1" rfl rfl).2.2.1 rfl
  have h2 := (orderUpdate_lifecycle sB oiF "c1" rfl rfl).2.1 rfl rfl
  refine ⟨h1, ?_, ?_⟩
  · rw [h1, h2.1]
    norm_num [sB, oiF]
  · rw [h1]
    exact h2.2

/-- C3 counterexample: the periodic reconciliation mutates `TradingState`
directly (here the cash fields change) and enqueues no snapshot events,
contradicting the claim that it only fetches and pushes queue events. -/
theorem reconciliation_mutates_directly_cex :
    (periodicRefresh s3 (some ⟨50, 150⟩) (some 7)).newState ≠ s3 ∧
    (periodicRefresh s3 (some ⟨50, 150⟩) (some 7)).enqueued = [] := by
  exact ⟨by decide, rfl⟩

/-- C3 amended: `TradingState` is mutated outside the dequeue step — the
periodic refresh writes the polled cash/portfolio value directly onto the
state, leaves the position unchanged and enqueues nothing, and the stream
producer callbacks mutate the state directly before enqueueing. -/
theorem stateMutation_outside_loop :
    (∀ (s : TradingState) (a : AccountInfo) (pq : Option ℚ),
        (periodicRefresh s (some a) pq).newState.last_known_cash = some a.cash ∧
        (periodicRefresh s (some a) pq).newState.current_position_qty =
          s.current_position_qty ∧
        (periodicRefresh s (some a) pq).enqueued = []) ∧
    (∀ (s : TradingState) (p : ℚ),
        (handle_trade s s.symbol p).1.last_trade_price = some p) ∧
    (∀ (s : TradingState) (oi : OrderInfo),
        (handle_trade_update s (UpdateData.orderU "fill" oi)).1 = handleOrderUpdate s oi) := by
  refine ⟨?_, ?_, ?_⟩
  · intro s a pq
    exact ⟨rfl, rfl, rfl⟩
  · intro s p
    simp [handle_trade]
  · intro s oi
    rfl

/-- C4: a polled position snapshot disagreeing with the local position by
more than the `0.01` tolerance raises the drift warning while the local
position is left untouched and nothing is enqueued. -/
theorem positionDrift_warn_noOverwrite (s : TradingState) (acct : Option AccountInfo)
    (q : ℚ) (h : (1 / 100 : ℚ) < |q - s.current_position_qty|) :
    (periodicRefresh s acct (some q)).posWarn = true ∧
    (periodicRefresh s acct (some q)).newState.current_position_qty =
      s.current_position_qty ∧
    (periodicRefresh s acct (some q)).enqueued = [] := by
  cases acct with
  | none => simp [periodicRefresh]; simpa using h
  | some a => simp [periodicRefresh]; simpa using h

/-- C4 witness (Scenario D): snapshot quantity 7 against local 10 warns
and leaves the position at 10. -/
theorem positionDrift_warn_noOverwrite_witness :
    (periodicRefresh s3 (some ⟨50, 150⟩) (some 7)).posWarn = true ∧
    (periodicRefresh s3 (some ⟨50, 150⟩) (some 7)).newState.current_position_qty =
      s3.current_position_qty ∧
    (periodicRefresh s3 (some ⟨50, 150⟩) (some 7)).enqueued = [] :=
  positionDrift_warn_noOverwrite s3 (some ⟨50, 150⟩) 7 (by norm_num [s3])

/-- C5 counterexample: an actionable BUY with no active order submits the
order with no Risk Gate call anywhere in the emitted broker calls — the
claimed pre-submission `check(symbol, side, |delta|)` never happens. -/
theorem riskGate_never_called_cex :
    (actOnSignal tFlat (some Signal.BUY) "cid1" (some ⟨some "o1", "accepted"⟩)).2 =
      [BrokerCall.placeOrder "SPY" 10 "buy" "cid1"] ∧
    ((actOnSignal tFlat (some Signal.BUY) "cid1" (some ⟨some "o1", "accepted"⟩)).2.filter
        BrokerCall.isRisk) = [] := by
  constructor <;> norm_num [actOnSignal, tFlat, targetFor, BrokerCall.isRisk] <;> decide

/-- C5 amended: for every actionable signal (position delta beyond the
`0.01` minimum) with no active order, the engine submits the market order
directly to the broker — the emitted calls are exactly one `place_order`
with the side-signed delta, and no Risk Gate check. -/
theorem submission_without_riskGate (t : TradingState) (sg : Signal) (cid : String)
    (ack : Option OrderAck) (hact : t.active_order_id = none)
    (hdelta : (1 / 100 : ℚ) <
      |targetFor sg t.current_position_qty - t.current_position_qty|) :
    (actOnSignal t (some sg) cid ack).2 =
      [BrokerCall.placeOrder t.symbol
        |targetFor sg t.current_position_qty - t.current_position_qty|
        (if 0 < targetFor sg t.current_position_qty - t.current_position_qty
          then "buy" else "sell")
        cid] := by
  have hd : (100 : ℚ)⁻¹ < |targetFor sg t.current_position_qty - t.current_position_qty| := by
    simpa using hdelta
  rcases ack with _ | ⟨oid, st⟩
  · simp [actOnSignal, hact, hd]
  · simp only [actOnSignal, hact]
    simp [hd]
    split_ifs <;> simp

/-- C5 witness: flat position, BUY signal, delta 10 — the broker receives
the order directly. -/
theorem submission_without_riskGate_witness :
    (actOnSignal tFlat (some Signal.BUY) "cid1" none).2 =
      [BrokerCall.placeOrder tFlat.symbol
        |targetFor Signal.BUY tFlat.current_position_qty - tFlat.current_position_qty|
        (if 0 < targetFor Signal.BUY tFlat.current_position_qty - tFlat.current_position_qty
          then "buy" else "sell")
        "cid1"] :=
  submission_without_riskGate tFlat Signal.BUY "cid1" none rfl
    (by norm_num [tFlat, targetFor])

/-- C8: the per-event exception boundary — every scheduled iteration is
completed regardless of injected per-event exceptions, and a faulted
iteration leaves the state as it was and continues with the rest. -/
theorem loop_survives_event_exceptions (cfg : StratConfig) :
    (∀ (inputs : List LoopInput) (es : EngineState),
        (runLoop cfg es inputs).2 = inputs.length) ∧
    (∀ (es : EngineState) (msg : String) (item : QueueItem) (cid : String)
        (ack : Option OrderAck) (rest : List LoopInput),
        runLoop cfg es (⟨some msg, item, cid, ack⟩ :: rest) =
          ((runLoop cfg es rest).1, (runLoop cfg es rest).2 + 1)) := by
  constructor
  · intro inputs
    induction inputs with
    | nil => intro es; rfl
    | cons inp rest ih => intro es; simp [runLoop, ih]
  · intro es msg item cid ack rest
    rfl

/-- C9: determinism of the signal generator — two strategy states with
the same rolling window produce the same sequence of signals on the same
input stream; the cached `current_zscore` is not hidden state. -/
theorem signal_determinism (cfg : StratConfig) (s1 s2 : StratState)
    (h : s1.prices = s2.prices) (inputs : List (ℚ × ℚ)) :
    runSignals cfg s1 inputs = runSignals cfg s2 inputs := by
  induction inputs generalizing s1 s2 with
  | nil => rfl
  | cons pq rest ih =>
    obtain ⟨p, pos⟩ := pq
    have he := get_signal_prices_only cfg h p pos
    simp only [runSignals]
    rw [he]

/-- C9 witness: identical empty windows with different cached z-scores
yield the same signals. -/
theorem signal_determinism_witness :
    runSignals mainConfig ⟨[], none⟩ [(3, 0)] =
      runSignals mainConfig ⟨[], some 5⟩ [(3, 0)] :=
  signal_determinism mainConfig ⟨[], none⟩ ⟨[], some 5⟩ rfl [(3, 0)]

/-- C10: a synchronous acknowledgement that is already terminal
(`rejected`/`canceled`/`expired`) leaves `active_order_id` cleared in the
same processing step, and a falsy `place_order` result (no object, or no
truthy id) never sets it. -/
theorem instantTerminal_ack_clears_active (t : TradingState) (sg : Signal)
    (cid : String) (h : t.active_order_id = none) :
    (∀ (oid st : String), (st = "rejected" ∨ st = "canceled" ∨ st = "expired") →
        (actOnSignal t (some sg) cid (some ⟨some oid, st⟩)).1.active_order_id = none) ∧
    ((actOnSignal t (some sg) cid none).1.active_order_id = none) ∧
    (∀ st : String,
        (actOnSignal t (some sg) cid (some ⟨none, st⟩)).1.active_order_id = none) := by
  refine ⟨?_, ?_, ?_⟩
  · intro oid st hst
    simp only [actOnSignal, h]
    split_ifs <;> simp_all
  · simp only [actOnSignal, h]
    split_ifs <;> simp_all
  · intro st
    simp only [actOnSignal, h]
    split_ifs <;> simp_all

/-- C10 witness: flat state, BUY signal — an immediately rejected
acknowledgement and a failed submission both leave no active order. -/
theorem instantTerminal_ack_clears_active_witness :
    (actOnSignal tFlat (some Signal.BUY) "cid1"
        (some ⟨some "o1", "rejected"⟩)).1.active_order_id = none ∧
    (actOnSignal tFlat (some Signal.BUY) "cid1" none).1.active_order_id = none := by
  have h := instantTerminal_ack_clears_active tFlat Signal.BUY "cid1" rfl
  exact ⟨h.1 "o1" "rejected" (Or.inl rfl), h.2.1⟩

lemma mean_13 : mean [(1 : ℚ), 3] = 2 := by
  norm_num [mean]

lemma variance_13 : variance [(1 : ℚ), 3] = 1 := by
  norm_num [variance, mean_13]

lemma stdev_13 : stdev [(1 : ℚ), 3] = 1 := by
  rw [stdev, variance_13]
  norm_num

lemma calcZscore_13 : calcZscore 2 [(1 : ℚ), 3] = some 1 := by
  unfold calcZscore
  rw [stdev_13]
  norm_num [mean_13]

lemma signalLogic_eq_tol (cfg : StratConfig) (z : ℝ) (pos : ℚ) :
    signalLogic cfg z pos = specSignalLogicTol cfg z pos := by
  unfold signalLogic specSignalLogicTol
  by_cases h1 : (100 : ℚ)⁻¹ < pos
  · have habs : ¬ |pos| < (100 : ℚ)⁻¹ := by
      rw [abs_of_pos (lt_trans (by norm_num) h1)]
      exact not_lt.mpr h1.le
    simp [h1, habs]
  · by_cases h2 : pos < -(100 : ℚ)⁻¹
    · have habs : ¬ |pos| < (100 : ℚ)⁻¹ := by
        rw [abs_of_neg (lt_trans h2 (by norm_num))]
        push_neg
        linarith
      simp [h1, h2, habs]
    · simp [h1, h2]

/-- C6 counterexample: with a tiny long position of `0.005` the code's
signal function holds (the position is inside the `0.01` flat tolerance)
while the spec's literal reference function, for which any
`position_qty > 0` is long, emits CLOSE (`z = 1 ≥ exit_threshold = 0`). -/
theorem signal_flatTolerance_cex :
    (get_signal cfg2 ⟨[1], none⟩ 3 (1 / 200)).2 = Signal.HOLD ∧
    (specGetSignal cfg2 ⟨[1], none⟩ 3 (1 / 200)).2 = Signal.CLOSE := by
  have hp : pushPrice cfg2.zscore_period [(1 : ℚ)] 3 = [1, 3] := rfl
  constructor
  · simp only [get_signal, hp]
    rw [show cfg2.zscore_period = 2 from rfl, calcZscore_13]
    norm_num [signalLogic, cfg2]
  · simp only [specGetSignal, hp]
    rw [show cfg2.zscore_period = 2 from rfl, calcZscore_13]
    norm_num [specSignalLogicExact, cfg2]

/-- C6 amended: the code's signal function coincides with the spec's
reference signal function once flat/long/short are read with the code's
`0.01` tolerance (flat `|qty| < 0.01`, long `qty > 0.01`, short
`qty < -0.01`, boundary `HOLD`); window and stdev guards unchanged. -/
theorem get_signal_matches_toleranced_spec (cfg : StratConfig) (s : StratState)
    (p pos : ℚ) :
    get_signal cfg s p pos = specGetSignalTol cfg s p pos := by
  simp only [get_signal, specGetSignalTol]
  cases h : calcZscore cfg.zscore_period (pushPrice cfg.zscore_period s.prices p) with
  | none => rfl
  | some z => simp [signalLogic_eq_tol]

/-- C7 counterexample: on the full window `[1, 3]` the statistic the code
uses is `1` (division by `stdev`), not the spec's
`(price - mean) / (stdev + ε) = 1 / (1 + 1e-6)`. -/
theorem zscore_formula_cex :
    calcZscore 2 [(1 : ℚ), 3] ≠ some (specZscore [(1 : ℚ), 3]) := by
  rw [calcZscore_13]
  intro hcontr
  have h1 : (1 : ℝ) = specZscore [(1 : ℚ), 3] := Option.some.inj hcontr
  rw [specZscore, stdev_13] at h1
  norm_num [mean_13] at h1

/-- C7 amended: for a full window whose standard deviation is at least
`ε = 1e-6`, the statistic equals `(price - mean) / stdev`, with mean and
standard deviation recomputed over the window; below `ε` (or with a short
window) no statistic is produced. -/
theorem zscore_formula_amended (period : Nat) (ps : List ℚ)
    (hlen : ¬ ps.length < period) (hsd : ¬ stdev ps < (1 / 1000000 : ℝ)) :
    calcZscore period ps =
      some (((ps.getLast?.getD 0 - mean ps : ℚ) : ℝ) / stdev ps) := by
  unfold calcZscore
  rw [if_neg hlen, if_neg hsd]

/-- C7 witness: the window `[1, 3]` is full for period 2 and has
standard deviation `1 ≥ ε`; the statistic is `(3 - 2) / 1`. -/
theorem zscore_formula_amended_witness :
    calcZscore 2 [(1 : ℚ), 3] =
      some ((([(1 : ℚ), 3].getLast?.getD 0 - mean [(1 : ℚ), 3] : ℚ) : ℝ) /
        stdev [(1 : ℚ), 3]) :=
  zscore_formula_amended 2 [(1 : ℚ), 3] (by norm_num)
    (by rw [stdev_13]; norm_num)

end LiveTrader
